import Mathlib

/-!
Shallow embedding of the GraphQL job resolvers in
src/@livepeer/graphql-sdk/src/index.js.

External collaborators are abstracted as parameters:
the RPC client is represented by the list of raw records it returns,
the HTTP client (fetch) by a function from a URL to a ProbeOutcome, and
the Node Url.resolve routine by a function parameter urlResolve.

The module-level DEAD_JOBS set is modelled by explicit state passing of a
Finset Nat; the batch path of the jobs resolver is linearized in list
order (one admissible schedule of the single-threaded event loop). Every
operation additionally reports the list of URLs it actually probed, so
that probe invocations can be counted in theorems.
-/

/-- One entry of the transcodingOptions array of a raw job record, as
supplied by the RPC collaborator. -/
structure TranscodingOption where
  hash : String
  name : String
  bitrate : String
  framerate : Nat
  resolution : String
  deriving DecidableEq, Repr

/-- A raw job record as returned by livepeer.rpc.getJob / getJobs. -/
structure RawJobRecord where
  jobId : Nat
  streamId : String
  transcodingOptions : List TranscodingOption
  transcoder : String
  broadcaster : String
  deriving DecidableEq, Repr

/-- A video transcoding profile: the shape produced for each transcoding
option by transformJob. -/
structure VideoProfile where
  id : String
  name : String
  bitrate : String
  framerate : Nat
  resolution : String
  deriving DecidableEq, Repr

/-- The normalized job shape produced by transformJob; the live and url
fields are absent (none) until derived by the jobs resolver. -/
structure NormalizedJob where
  type : String
  id : Nat
  broadcaster : String
  profiles : List VideoProfile
  stream : String
  transcoder : String
  live : Option Bool := none
  url : Option String := none
  deriving DecidableEq, Repr

/-- transformJob (index.js lines 271-289): normalizes a raw record.
The type is VideoJob when transcodingOptions.length is truthy (nonzero),
TestJob otherwise; each option is copied with its hash renamed to id. -/
def transformJob (r : RawJobRecord) : NormalizedJob :=
  { type := if r.transcodingOptions.length ≠ 0 then "VideoJob" else "TestJob",
    id := r.jobId,
    broadcaster := r.broadcaster,
    profiles := r.transcodingOptions.map fun o =>
      { id := o.hash, name := o.name, bitrate := o.bitrate,
        framerate := o.framerate, resolution := o.resolution },
    stream := r.streamId,
    transcoder := r.transcoder }

/-- DEFAULT_STREAM_ROOT (index.js line 16). -/
def DEFAULT_STREAM_ROOT : String := "http://streams.livepeer.org"

/-- The default of the streamRoot option of createSchema (index.js line 19). -/
def createSchemaStreamRootDefault : String :=
  "http://www.streambox.fr/playlists/x36xhzz/"

/-- The declared defaultValue of the streamRootUrl argument of the live
field of VideoJob (index.js line 195): DEFAULT_STREAM_ROOT. -/
def VideoJobLiveStreamRootUrlDefault : String := DEFAULT_STREAM_ROOT

/-- The declared defaultValue of the streamRootUrl argument of the url
field of VideoJob (index.js line 208): DEFAULT_STREAM_ROOT. -/
def VideoJobUrlStreamRootUrlDefault : String := DEFAULT_STREAM_ROOT

/-- The declared defaultValue of the streamRootUrl argument of Query.jobs
(index.js line 250): DEFAULT_STREAM_ROOT. -/
def QueryJobsStreamRootUrlDefault : String := DEFAULT_STREAM_ROOT

/-- resolvers.VideoJob.fields.url (index.js lines 343-346): if the job
already carries a string url (typeof url is string, the empty string
included) it is returned unchanged; otherwise the stream id with the
literal suffix .m3u8 is resolved against streamRootUrl by Url.resolve,
abstracted here as the parameter urlResolve. On a string argument the
JavaScript expression streamRootUrl or-else empty-string is the identity,
so it is dropped. -/
def url (urlResolve : String → String → String)
    (stream : String) (urlVal : Option String) (streamRootUrl : String) : String :=
  match urlVal with
  | some u => u
  | none => urlResolve streamRootUrl (stream ++ ".m3u8")

/-- Outcome of the HTTP probe (fetch): either a response carrying a
status code, or a raised transport error carrying a message. -/
inductive ProbeOutcome where
  | ok (status : Nat)
  | err (msg : String)
  deriving DecidableEq, Repr

/-- resolvers.VideoJob.fields.live (index.js lines 325-342). Returns the
boolean result, the cache after the call, and the list of URLs probed:
a precomputed boolean live value is returned unchanged; an id found in
DEAD_JOBS answers false with no probe; otherwise the stream URL is
probed, a response answers status equals 200 with the cache untouched,
and a raised error is swallowed, answering false after inserting the id
into DEAD_JOBS. -/
def live (urlResolve : String → String → String) (probe : String → ProbeOutcome)
    (DEAD_JOBS : Finset Nat) (id : Nat) (liveVal : Option Bool)
    (stream : String) (urlVal : Option String) (streamRootUrl : String) :
    Bool × Finset Nat × List String :=
  match liveVal with
  | some b => (b, DEAD_JOBS, [])
  | none =>
    if id ∈ DEAD_JOBS then (false, DEAD_JOBS, [])
    else
      let videoUrl := url urlResolve stream urlVal streamRootUrl
      match probe videoUrl with
      | .ok status => (status == 200, DEAD_JOBS, [videoUrl])
      | .err _ => (false, insert id DEAD_JOBS, [videoUrl])

/-- One step of the batch map in the jobs resolver (index.js lines
301-314): a TestJob gets live forced to false with no probe; a VideoJob
gets live from the live resolver; every job gets url derived. -/
def processJob (urlResolve : String → String → String) (probe : String → ProbeOutcome)
    (streamRootUrl : String) (DEAD_JOBS : Finset Nat) (job : NormalizedJob) :
    NormalizedJob × Finset Nat × List String :=
  if job.type == "TestJob" then
    ({ job with live := some false,
                url := some (url urlResolve job.stream job.url streamRootUrl) },
     DEAD_JOBS, [])
  else
    let r := live urlResolve probe DEAD_JOBS job.id job.live job.stream job.url streamRootUrl
    ({ job with live := some r.1,
                url := some (url urlResolve job.stream job.url streamRootUrl) },
     r.2.1, r.2.2)

/-- The batch map over all normalized jobs, threading the DEAD_JOBS cache
in list order and collecting every probed URL. -/
def jobsGo (urlResolve : String → String → String) (probe : String → ProbeOutcome)
    (streamRootUrl : String) :
    List NormalizedJob → Finset Nat → List NormalizedJob × Finset Nat × List String
  | [], DEAD_JOBS => ([], DEAD_JOBS, [])
  | j :: rest, DEAD_JOBS =>
    let r1 := processJob urlResolve probe streamRootUrl DEAD_JOBS j
    let r2 := jobsGo urlResolve probe streamRootUrl rest r1.2.1
    (r1.1 :: r2.1, r2.2.1, r1.2.2 ++ r2.2.2)

/-- resolvers.Query.fields.jobs (index.js lines 298-317): normalize the
records returned by the RPC collaborator, derive live and url for each,
then return all jobs when dead is true and only those whose live value
is exactly true otherwise. -/
def jobs (urlResolve : String → String → String) (probe : String → ProbeOutcome)
    (results : List RawJobRecord) (dead : Bool) (streamRootUrl : String)
    (DEAD_JOBS : Finset Nat) : List NormalizedJob × Finset Nat × List String :=
  let r := jobsGo urlResolve probe streamRootUrl (results.map transformJob) DEAD_JOBS
  (if dead then r.1 else r.1.filter fun x => x.live == some true, r.2.1, r.2.2)

/-- createResolvers (index.js line 291) creates DEAD_JOBS as new Set():
the cache starts empty. -/
def initialDeadJobs : Finset Nat := ∅

/-- Forgets the derived live and url fields of a normalized job; used to
compare the output of the batch path with the plain normalization. -/
def stripDerived (j : NormalizedJob) : NormalizedJob :=
  { j with live := none, url := none }

/-- A concrete instance of the abstract urlResolve collaborator used in
witnesses: plain concatenation, which agrees with RFC 3986 relative
reference resolution when the base ends in a slash and the reference is
a bare path segment. -/
def resolveConcat (root rel : String) : String := root ++ rel

/-- A concrete probe answering every URL with the given status. -/
def probeStatus (s : Nat) : String → ProbeOutcome := fun _ => .ok s

/-- A concrete probe raising a transport error with the given message on
every URL. -/
def probeThrow (msg : String) : String → ProbeOutcome := fun _ => .err msg

theorem stripDerived_transformJob (r : RawJobRecord) :
    stripDerived (transformJob r) = transformJob r := rfl

theorem stripDerived_processJob (u : String → String → String)
    (p : String → ProbeOutcome) (root : String) (c : Finset Nat)
    (j : NormalizedJob) :
    stripDerived (processJob u p root c j).1 = stripDerived j := by
  unfold processJob
  split <;> rfl

theorem jobsGo_map_strip (u : String → String → String)
    (p : String → ProbeOutcome) (root : String) (js : List NormalizedJob) :
    ∀ c : Finset Nat,
      ((jobsGo u p root js c).1).map stripDerived = js.map stripDerived := by
  induction js with
  | nil => intro c; rfl
  | cons j rest ih =>
    intro c
    simp only [jobsGo, List.map_cons]
    rw [stripDerived_processJob, ih]

theorem live_cache_subset (u : String → String → String)
    (p : String → ProbeOutcome) (c : Finset Nat) (id : Nat) (lv : Option Bool)
    (stream : String) (uv : Option String) (root : String) :
    c ⊆ (live u p c id lv stream uv root).2.1 := by
  cases lv with
  | some b => exact Finset.Subset.refl c
  | none =>
    by_cases h : id ∈ c
    · simp [live, h]
    · cases hp : p (url u stream uv root) with
      | ok s => simp [live, h, hp]
      | err m => simp [live, h, hp, Finset.subset_insert]

theorem processJob_cache_subset (u : String → String → String)
    (p : String → ProbeOutcome) (root : String) (c : Finset Nat)
    (j : NormalizedJob) :
    c ⊆ (processJob u p root c j).2.1 := by
  unfold processJob
  split
  · exact Finset.Subset.refl c
  · exact live_cache_subset u p c j.id j.live j.stream j.url root

theorem jobsGo_cache_subset (u : String → String → String)
    (p : String → ProbeOutcome) (root : String) (js : List NormalizedJob) :
    ∀ c : Finset Nat, c ⊆ (jobsGo u p root js c).2.1 := by
  induction js with
  | nil => intro c; exact Finset.Subset.refl c
  | cons j rest ih =>
    intro c
    exact Finset.Subset.trans (processJob_cache_subset u p root c j)
      (ih (processJob u p root c j).2.1)

/-- Claim C4: normalization yields type TestJob iff the transcoding
options sequence is empty and VideoJob otherwise; equivalently the type
is TestJob iff the profiles list is empty. -/
theorem transformJob_type_spec (r : RawJobRecord) :
    ((transformJob r).type = "TestJob" ↔ r.transcodingOptions = []) ∧
    ((transformJob r).type = "VideoJob" ↔ r.transcodingOptions ≠ []) ∧
    ((transformJob r).type = "TestJob" ↔ (transformJob r).profiles = []) := by
  cases h : r.transcodingOptions with
  | nil => simp [transformJob, h]
  | cons o os => simp [transformJob, h]

/-- Claim C8: for every transcoding option the produced VideoProfile has
id equal to the hash of the option and every other attribute (name,
bitrate, framerate, resolution) carried over unaltered, one profile per
option in order. -/
theorem transformJob_profiles_spec (r : RawJobRecord) :
    List.Forall₂ (fun (o : TranscodingOption) (pr : VideoProfile) =>
        pr.id = o.hash ∧ pr.name = o.name ∧ pr.bitrate = o.bitrate ∧
        pr.framerate = o.framerate ∧ pr.resolution = o.resolution)
      r.transcodingOptions (transformJob r).profiles ∧
    (transformJob r).profiles.length = r.transcodingOptions.length := by
  constructor
  · have h : (transformJob r).profiles = r.transcodingOptions.map fun o =>
        ({ id := o.hash, name := o.name, bitrate := o.bitrate,
           framerate := o.framerate, resolution := o.resolution } : VideoProfile) := rfl
    rw [h, List.forall₂_map_right_iff]
    exact List.forall₂_same.mpr fun o _ => ⟨rfl, rfl, rfl, rfl, rfl⟩
  · simp [transformJob]

/-- Claim C5 counterexample: a job carrying the empty string as url is
returned unchanged (empty) instead of being resolved against the root,
refuting the claim that every url that is not a non-empty string is
derived by relative reference resolution. -/
theorem url_empty_string_cex :
    url resolveConcat "s2" (some "") "http://root/" = "" ∧
    resolveConcat "http://root/" ("s2" ++ ".m3u8") = "http://root/s2.m3u8" ∧
    url resolveConcat "s2" (some "") "http://root/" ≠
      resolveConcat "http://root/" ("s2" ++ ".m3u8") := by
  refine ⟨rfl, by decide, by decide⟩

/-- Claim C5 (amended): any string url on the job, the empty string
included, is returned unchanged regardless of streamRootUrl; only when
the url is absent is the stream id with suffix .m3u8 resolved against
the caller supplied root, with no probe involved; moreover a probe
answering 200 on that resolved URL makes the liveness resolver answer
true without touching the dead job cache. -/
theorem url_spec (u : String → String → String) (stream s root : String) :
    url u stream (some s) root = s ∧
    url u stream none root = u root (stream ++ ".m3u8") ∧
    (∀ p : String → ProbeOutcome, ∀ c : Finset Nat, ∀ id : Nat,
      id ∉ c → p (u root (stream ++ ".m3u8")) = .ok 200 →
      live u p c id none stream none root =
        (true, c, [u root (stream ++ ".m3u8")])) := by
  refine ⟨rfl, rfl, ?_⟩
  intro p c id hmem hp
  simp [live, url, hmem, hp]

theorem url_spec_witness :
    live resolveConcat (probeStatus 200) ∅ 2 none "s2" none "http://root/" =
      (true, ∅, [resolveConcat "http://root/" ("s2" ++ ".m3u8")]) :=
  (url_spec resolveConcat "s2" "" "http://root/").2.2 (probeStatus 200) ∅ 2
    (by decide) rfl

/-- Claim C9 counterexample: the declared defaultValue of the
streamRootUrl argument of the live and url fields of VideoJob is
DEFAULT_STREAM_ROOT, which is not the streambox URL the claim names. -/
theorem streamRootUrlDefault_cex :
    VideoJobLiveStreamRootUrlDefault ≠ "http://www.streambox.fr/playlists/x36xhzz/" ∧
    VideoJobUrlStreamRootUrlDefault ≠ "http://www.streambox.fr/playlists/x36xhzz/" := by
  constructor <;> decide

/-- Claim C9 (amended): the declared defaultValue of the streamRootUrl
argument of the live and url fields of VideoJob is DEFAULT_STREAM_ROOT,
the string http://streams.livepeer.org; the streambox URL is instead the
default of the streamRoot option of createSchema. -/
theorem streamRootUrlDefault_spec :
    VideoJobLiveStreamRootUrlDefault = "http://streams.livepeer.org" ∧
    VideoJobUrlStreamRootUrlDefault = "http://streams.livepeer.org" ∧
    createSchemaStreamRootDefault = "http://www.streambox.fr/playlists/x36xhzz/" :=
  ⟨rfl, rfl, rfl⟩

/-- Claim C1: with dead true the jobs operation returns every normalized
job; with dead false it returns exactly the stable filter keeping the
jobs whose derived live value is exactly true; and forgetting the
derived fields of the dead true output recovers the normalized records
in the order returned by the RPC collaborator. -/
theorem jobs_filter_spec (u : String → String → String) (p : String → ProbeOutcome)
    (rs : List RawJobRecord) (root : String) (c : Finset Nat) :
    (jobs u p rs true root c).1 =
      (jobsGo u p root (rs.map transformJob) c).1 ∧
    (jobs u p rs false root c).1 =
      (jobs u p rs true root c).1.filter (fun x => x.live == some true) ∧
    ((jobs u p rs true root c).1).map stripDerived = rs.map transformJob := by
  refine ⟨rfl, rfl, ?_⟩
  rw [show (jobs u p rs true root c).1 =
      (jobsGo u p root (rs.map transformJob) c).1 from rfl]
  rw [jobsGo_map_strip]
  simp [List.map_map, Function.comp, stripDerived_transformJob]

/-- Claim C2 counterexample: a probe that completes with status 404
makes the live resolver answer false but does not insert the id into
the dead job cache, refuting the claim that a non-200 response is
cached like a raised error. -/
theorem live_non200_not_cached_cex :
    live resolveConcat (probeStatus 404) ∅ 1 none "s1" none "http://root/" =
      (false, ∅, ["http://root/s1.m3u8"]) ∧
    (1 : Nat) ∉
      (live resolveConcat (probeStatus 404) ∅ 1 none "s1" none "http://root/").2.1 := by
  constructor <;> decide

/-- Claim C2 (amended): for a job without a precomputed live value whose
id is not cached, a probe that raises (timeout or transport error) makes
the resolver answer false, insert the id into the dead job cache, and
discard the error (the result does not depend on the message); a probe
that completes with a non-200 status instead answers false while
leaving the cache unchanged. -/
theorem live_probe_failure (u : String → String → String) (p : String → ProbeOutcome)
    (c : Finset Nat) (id : Nat) (stream : String) (uv : Option String) (root : String)
    (hmem : id ∉ c) :
    (∀ msg, p (url u stream uv root) = .err msg →
      live u p c id none stream uv root =
        (false, insert id c, [url u stream uv root])) ∧
    (∀ s, s ≠ 200 → p (url u stream uv root) = .ok s →
      live u p c id none stream uv root =
        (false, c, [url u stream uv root])) := by
  constructor
  · intro msg hp
    simp [live, hmem, hp]
  · intro s hs hp
    simp [live, hmem, hp, beq_eq_false_iff_ne, hs]

theorem live_probe_failure_witness :
    live resolveConcat (probeThrow "boom") ∅ 3 none "s3" none "http://root/" =
      (false, insert 3 ∅, [url resolveConcat "s3" none "http://root/"]) :=
  (live_probe_failure resolveConcat (probeThrow "boom") ∅ 3 "s3" none "http://root/"
    (by decide)).1 "boom" rfl

/-- Claim C3 counterexample: with id 1 already in the dead job cache, a
liveness check for a job carrying the precomputed value live = true
returns true, not false: the precomputed short circuit precedes the
cache lookup. -/
theorem live_cached_precomputed_cex :
    (1 : Nat) ∈ (insert 1 (∅ : Finset Nat)) ∧
    live resolveConcat (probeThrow "x") (insert 1 ∅) 1 (some true) "s1" none
      "http://root/" = (true, insert 1 ∅, []) := by
  constructor <;> decide

/-- Claim C3 (amended): for every job id already in the dead job cache, a
liveness check for a job without a precomputed boolean live value returns
false, leaves the cache unchanged, and performs zero probe invocations;
a job carrying a precomputed boolean value short circuits before the
cache lookup and that value is returned unchanged, also with zero
probes. -/
theorem live_cached_dead (u : String → String → String) (p : String → ProbeOutcome)
    (c : Finset Nat) (id : Nat) (stream : String) (uv : Option String) (root : String)
    (hmem : id ∈ c) :
    live u p c id none stream uv root = (false, c, []) ∧
    (∀ b, live u p c id (some b) stream uv root = (b, c, [])) :=
  ⟨by simp [live, hmem], fun b => rfl⟩

theorem live_cached_dead_witness :
    live resolveConcat (probeThrow "x") (insert 1 ∅) 1 none "s1" none "http://root/" =
      (false, insert 1 ∅, []) :=
  (live_cached_dead resolveConcat (probeThrow "x") (insert 1 ∅) 1 "s1" none
    "http://root/" (by decide)).1

theorem jobsGo_testJob_live (u : String → String → String) (p : String → ProbeOutcome)
    (root : String) (js : List NormalizedJob) :
    ∀ c : Finset Nat, ∀ j ∈ (jobsGo u p root js c).1,
      j.type = "TestJob" → j.live = some false := by
  induction js with
  | nil => intro c j hj; simp [jobsGo] at hj
  | cons a rest ih =>
    intro c j hj ht
    simp only [jobsGo, List.mem_cons] at hj
    rcases hj with h1 | h2
    · subst h1
      by_cases hta : a.type = "TestJob"
      · simp [processJob, hta]
      · exfalso
        simp [processJob, hta, beq_eq_false_iff_ne] at ht
    · exact ih _ j h2 ht

/-- Claim C6: a job normalized as TestJob never triggers an HTTP probe
in the batch path (its processing step probes nothing and leaves the
cache unchanged) and its live value in the assembled result is always
false, whatever the dead argument. -/
theorem testJob_never_probes :
    (∀ (u : String → String → String) (p : String → ProbeOutcome)
       (root : String) (c : Finset Nat) (j : NormalizedJob),
      j.type = "TestJob" →
      processJob u p root c j =
        ({ j with live := some false,
                  url := some (url u j.stream j.url root) }, c, [])) ∧
    (∀ (u : String → String → String) (p : String → ProbeOutcome)
       (rs : List RawJobRecord) (dead : Bool) (root : String) (c : Finset Nat)
       (j : NormalizedJob),
      j ∈ (jobs u p rs dead root c).1 → j.type = "TestJob" →
      j.live = some false) := by
  constructor
  · intro u p root c j hj
    simp [processJob, hj]
  · intro u p rs dead root c j hj ht
    have hmem : j ∈ (jobsGo u p root (rs.map transformJob) c).1 := by
      cases dead with
      | true => exact hj
      | false => exact List.mem_of_mem_filter hj
    exact jobsGo_testJob_live u p root (rs.map transformJob) c j hmem ht

/-- A raw record with no transcoding options, used as concrete input in
witnesses. -/
def testJobRec : RawJobRecord :=
  { jobId := 1, streamId := "s1", transcodingOptions := [],
    transcoder := "0xT", broadcaster := "0xB" }

theorem testJob_never_probes_witness :
    processJob resolveConcat (probeThrow "x") "http://root/" ∅ (transformJob testJobRec) =
      ({ transformJob testJobRec with
          live := some false,
          url := some (url resolveConcat (transformJob testJobRec).stream
            (transformJob testJobRec).url "http://root/") }, ∅, []) :=
  testJob_never_probes.1 resolveConcat (probeThrow "x") "http://root/" ∅
    (transformJob testJobRec) (by decide)

/-- Claim C7: the dead job cache is created empty at resolver
construction and its membership is monotonic: the live resolver and the
batch jobs operation only ever leave it unchanged or add job ids; no
operation removes an id. -/
theorem deadJobs_monotone :
    initialDeadJobs = ∅ ∧
    (∀ (u : String → String → String) (p : String → ProbeOutcome)
       (c : Finset Nat) (id : Nat) (lv : Option Bool) (stream : String)
       (uv : Option String) (root : String),
      c ⊆ (live u p c id lv stream uv root).2.1) ∧
    (∀ (u : String → String → String) (p : String → ProbeOutcome)
       (rs : List RawJobRecord) (dead : Bool) (root : String) (c : Finset Nat),
      c ⊆ (jobs u p rs dead root c).2.1) := by
  refine ⟨rfl, live_cache_subset, ?_⟩
  intro u p rs dead root c
  exact jobsGo_cache_subset u p root (rs.map transformJob) c

/-- Claim C10: for a job without a precomputed live value whose id is
not cached, a probe that completes with a non-200 status makes the
resolver answer false while leaving the dead job cache unchanged, so a
later check for the same id issues a fresh probe. -/
theorem live_non200_no_cache (u : String → String → String) (p : String → ProbeOutcome)
    (c : Finset Nat) (id : Nat) (stream : String) (uv : Option String) (root : String)
    (hmem : id ∉ c) (s : Nat) (hs : s ≠ 200)
    (hp : p (url u stream uv root) = .ok s) :
    live u p c id none stream uv root = (false, c, [url u stream uv root]) ∧
    live u p (live u p c id none stream uv root).2.1 id none stream uv root =
      (false, c, [url u stream uv root]) := by
  have h1 : live u p c id none stream uv root = (false, c, [url u stream uv root]) := by
    simp [live, hmem, hp, beq_eq_false_iff_ne, hs]
  refine ⟨h1, ?_⟩
  rw [h1]
  exact h1

theorem live_non200_no_cache_witness :
    live resolveConcat (probeStatus 500) ∅ 4 none "s4" none "http://root/" =
      (false, ∅, [url resolveConcat "s4" none "http://root/"]) :=
  (live_non200_no_cache resolveConcat (probeStatus 500) ∅ 4 "s4" none "http://root/"
    (by decide) 500 (by decide) rfl).1
